import Mathlib

/-!
Verification of the `helpful` Rust crate (src/src/lib.rs, src/src/result_ext.rs):
a contextual-error capture and reporting library.  The shallow embedding below
translates the observable behaviour of the crate's core: the `Error` value
(source + span trace + backtrace), its `Display`/`Debug` renderings, the
`From`/`Traced`/`ResultExt` conversions, the `helpful!` construction macro and
the `MainResult` termination adapter.

Ambient effects are made explicit: in Rust, `SpanTrace::capture()` and
`Backtrace::capture()` read ambient thread-local / environment state; here that
state is a `Context` value passed explicitly to every capturing operation.
A type-erased `dyn StdError` source is modelled by its observable behaviour:
its `Display` text and its `Debug` text.
-/

namespace Helpful

/-- One instrumented call frame of the span trace.
Modelled from the spec: the span-trace data comes from the external
`tracing_error` collaborator (not part of src/); per the spec each frame has an
optional name, named field values rendered as text, and a source location. -/
structure Frame where
  name : String
  fields : List (String × String)
  location : Option String
deriving DecidableEq

/-- The captured span trace: an immutable ordered list of frames,
most-recent first (spec: "zero or more ordered frames (most-recent first)"). -/
structure SpanTrace where
  frames : List Frame
deriving DecidableEq

/-- Backtrace capture status, mirroring `std::backtrace::BacktraceStatus`. -/
inductive BacktraceStatus where
  | captured
  | disabled
  | unsupported
deriving DecidableEq

/-- A platform backtrace snapshot: a capture status plus the text the platform
would render for it. Modelled from the spec: `std::backtrace::Backtrace` is an
external collaborator with "a status of {captured, unsupported, disabled}". -/
structure Backtrace where
  status : BacktraceStatus
  text : String
deriving DecidableEq

/-- The ambient state read by the capturing operations, passed explicitly:
the currently active instrumented frames (most-recent first), the external
backtrace toggle (`RUST_BACKTRACE`), platform backtrace support, and the text
the platform would produce for a backtrace captured right now. -/
structure Context where
  frames : List Frame
  backtraceEnabled : Bool
  backtraceSupported : Bool
  backtraceText : String
deriving DecidableEq

/-- Modelled from the spec: `SpanTrace::capture()` "always succeeds, returns
empty snapshot if no frames active" — an immutable point-in-time copy of the
currently active frames. -/
def SpanTrace.capture (ctx : Context) : SpanTrace :=
  ⟨ctx.frames⟩

/-- Modelled from the spec: `Backtrace::capture()` — "a single external toggle
(read once at backtrace-capture time) controls whether backtrace capture is
attempted; when unset/off, status is `disabled`"; an unsupported platform
reports `unsupported`; otherwise the capture succeeds with status `captured`. -/
def Backtrace.capture (ctx : Context) : Backtrace :=
  if ctx.backtraceEnabled then
    if ctx.backtraceSupported then ⟨.captured, ctx.backtraceText⟩
    else ⟨.unsupported, ""⟩
  else ⟨.disabled, ""⟩

/-- Render one frame at a given index.
Modelled from the spec contract for the snapshot's text rendering:
`"{index}: {name}"` then one `with field=value` line per field (omitted when
there are no fields) then the `at location` line (omitted when unavailable). -/
def Frame.render (idx : Nat) (fr : Frame) : String :=
  toString idx ++ ": " ++ fr.name ++ "\n"
    ++ String.join (fr.fields.map (fun p => "        with " ++ p.1 ++ "=" ++ p.2 ++ "\n"))
    ++ (match fr.location with
        | some loc => "          at " ++ loc ++ "\n"
        | none => "")

/-- Modelled from the spec: the `Display` rendering of a captured span trace —
one block per frame, most-recent first; an empty capture renders nothing. -/
def SpanTrace.render (st : SpanTrace) : String :=
  String.join (st.frames.enum.map (fun p => Frame.render p.1 p.2))

/-- The `Display` rendering of a backtrace (`Display::fmt(&self.backtrace, f)`):
the platform-rendered text. -/
def Backtrace.render (bt : Backtrace) : String :=
  bt.text

/-- The observable behaviour of a boxed, type-erased
`dyn StdError + Send + Sync + 'static` source: its `Display` text (short form)
and its `Debug` text. -/
structure NativeError where
  display : String
  debug : String
deriving DecidableEq

/-- The main `Error` type (src/src/lib.rs lines 172-177): an owned type-erased
`source`, a captured `span_trace`, and (with the `std` feature) a captured
`backtrace`. -/
structure Error where
  source : NativeError
  span_trace : SpanTrace
  backtrace : Backtrace
deriving DecidableEq

/-- `Error::new` (src/src/lib.rs lines 180-187): box the source and capture the
span trace and the backtrace at this point. -/
def Error.new (ctx : Context) (source : NativeError) : Error :=
  { source := source
    span_trace := SpanTrace.capture ctx
    backtrace := Backtrace.capture ctx }

/-- The observable behaviour of a message value `M : Display + Debug`:
its `Display` text and its `Debug` text. -/
structure Message where
  displayText : String
  debugText : String
deriving DecidableEq

/-- Modelled from the spec: `MessageError` lives in the crate's `wrapper`
module, which is not in src/ (only `mod wrapper;` is); per the spec, "Construct
from message" wraps a value "that can render both a short display form and a
debug form ... as if it were a native error", so the wrapper's `Display` and
`Debug` delegate to the message's own. -/
def MessageError (m : Message) : NativeError :=
  ⟨m.displayText, m.debugText⟩

/-- `Error::msg` (src/src/lib.rs lines 191-196): wrap the message in a
`MessageError` and construct via `Error::new`. -/
def Error.msg (ctx : Context) (m : Message) : Error :=
  Error.new ctx (MessageError m)

/-- Rust's `Debug` rendering of a string value: the text surrounded by quotes
(escaping of special characters inside the text is external `core::fmt`
behaviour; the claims below never inspect it). -/
def strDebug (s : String) : String :=
  "\"" ++ s ++ "\""

/-- A `String` or `&'static str` message value as a `Message`: `Display` is the
text itself, `Debug` is the quoted form. -/
def strMessage (s : String) : Message :=
  ⟨s, strDebug s⟩

/-- `impl Debug for Error` (src/src/lib.rs lines 210-228), as a function of the
formatter's alternate flag.  Alternate (`{:#?}`): delegate to the source's
`Debug`.  Non-alternate: the source's `Display`, a blank separator, the literal
`Call history (recent first):` header, the span trace, and — only when the
backtrace status is `Captured` — a blank separator, the `Backtrace:` header and
the backtrace text. -/
def Error.debugStr (e : Error) : Bool → String
  | true => e.source.debug
  | false =>
    e.source.display ++ "\n\n" ++ "Call history (recent first):\n"
      ++ e.span_trace.render
      ++ (match e.backtrace.status with
          | .captured => "\n\n" ++ "Backtrace:\n" ++ e.backtrace.render
          | _ => "")

/-- `impl Display for Error` (src/src/lib.rs lines 199-208), as a function of
the formatter's alternate flag.  Alternate (`{:#}`): delegate to the source's
`Display` (the short form).  Non-alternate (`{}`): write `Error: ` and then the
`Debug` form with the same (non-alternate) formatter. -/
def Error.displayStr (e : Error) : Bool → String
  | true => e.source.display
  | false => "Error: " ++ e.debugStr false

/-- Rust's `core::result::Result`. -/
inductive RResult (T E : Type) where
  | ok (value : T)
  | err (error : E)
deriving DecidableEq

/-- Rust's `Result::map_err`: map the failure branch, keep the success branch. -/
def RResult.map_err (f : E → F) : RResult T E → RResult T F
  | .ok v => .ok v
  | .err e => .err (f e)

/-- The `Into<Error>` capability of a failure type, with the ambient capture
state made explicit.  Rust resolves `Into<Error>` through exactly two `From`
impls: the crate's blanket `impl<E: StdError + Send + Sync + 'static> From<E>
for Error` and the language's reflexive `impl From<T> for T`. -/
class IntoError (E : Type) where
  into : Context → E → Error

/-- `impl<E: StdError + Send + Sync + 'static> From<E> for Error`
(src/src/lib.rs lines 230-234): `Self::new(source)`. -/
instance : IntoError NativeError :=
  ⟨fun ctx source => Error.new ctx source⟩

/-- The conversion of an `Error` into an `Error`: `Error` does not implement
`StdError` (src/src/lib.rs line 171 documents that this would conflict with the
blanket `From`), so `Into::into` at type `Error` resolves to the reflexive
`impl From<T> for T` of the Rust core library — the identity, with no capture. -/
instance : IntoError Error :=
  ⟨fun _ e => e⟩

/-- `Traced::traced` for `Result<T, E>` with `E: Into<Error>`
(src/src/lib.rs lines 246-252): `self.map_err(Into::into)`. -/
def Traced.traced [IntoError E] (ctx : Context) : RResult T E → RResult T Error :=
  RResult.map_err (IntoError.into ctx)

/-- `ResultExt::helpful` for `Result<T, E>` with `E: Into<Error>`
(src/src/result_ext.rs lines 11-17): `self.map_err(Into::into)`. -/
def ResultExt.helpful [IntoError E] (ctx : Context) : RResult T E → RResult T Error :=
  RResult.map_err (IntoError.into ctx)

/-- A `core::fmt::Arguments` value, by its observable behaviour: either a
single literal piece with no substitution arguments (then `as_str` is `Some`),
or a template with arguments whose eagerly rendered text is `s` (then `as_str`
is `None`). -/
inductive Arguments where
  | literal (s : String)
  | formatted (s : String)
deriving DecidableEq

/-- `Arguments::as_str`: the literal text when there are no substitution
arguments, `None` otherwise. -/
def Arguments.as_str : Arguments → Option String
  | .literal s => some s
  | .formatted _ => none

/-- `alloc::fmt::format`: run the formatting engine, producing the rendered
text as an owned string. -/
def fmtFormat : Arguments → String
  | .literal s => s
  | .formatted s => s

/-- `__private::format_err` (src/src/lib.rs lines 317-331): when
`args.as_str()` is `Some(message)` wrap the literal directly via `Error::msg`;
otherwise render with the formatting engine and wrap the owned string. -/
def format_err (ctx : Context) (args : Arguments) : Error :=
  match args.as_str with
  | some message => Error.msg ctx (strMessage message)
  | none => Error.msg ctx (strMessage (fmtFormat args))

/-- `__private::must_use` (src/src/lib.rs lines 337-339): the identity. -/
def must_use (e : Error) : Error :=
  e

/-- The `helpful!` macro, literal branch (src/src/lib.rs lines 287-292):
`helpful!("msg")` expands to `must_use(format_err(format_args!("msg")))`, and
`format_args!` of a plain literal yields an `Arguments` whose `as_str` is the
literal. -/
def helpfulMacroLit (ctx : Context) (msg : String) : Error :=
  must_use (format_err ctx (Arguments.literal msg))

/-- The `helpful!` macro, format branch (src/src/lib.rs lines 293-295):
`helpful!(fmt, args...)` expands to `Error::msg(format!(fmt, args...))` — the
template is rendered eagerly into an owned string and wrapped. -/
def helpfulMacroFmt (ctx : Context) (args : Arguments) : Error :=
  Error.msg ctx (strMessage (fmtFormat args))

/-- `MainResult` (src/src/lib.rs lines 255-258): a return type for `main`. -/
inductive MainResult (T E : Type) where
  | Ok (value : T)
  | Err (error : E)
deriving DecidableEq

/-- `impl<T, E> From<StdResult<T, E>> for MainResult<T, E>`
(src/src/lib.rs lines 260-267). -/
def MainResult.fromResult : RResult T E → MainResult T E
  | .ok v => .Ok v
  | .err e => .Err e

/-- `std::process::ExitCode::FAILURE`, modelled from the spec as the "single
fixed non-zero code" reported on failure (the conventional value 1). -/
def ExitCode.FAILURE : Nat :=
  1

/-- What `Termination::report` observably produces: the process exit code and
the text the call itself writes to the error stream. -/
structure ReportOutcome where
  exitCode : Nat
  stderrText : String
deriving DecidableEq

/-- `impl<T: Termination, E: Display> Termination for MainResult<T, E>`
(src/src/lib.rs lines 270-282), instantiated at `E = Error`.  `reportOk` is the
wrapped success type's own `Termination::report` (it only yields an exit code
and writes nothing itself).  On the failure branch the code runs
`eprintln!("{}", error)` — the non-alternate `Display` rendering followed by a
line break — and returns `ExitCode::FAILURE`. -/
def MainResult.report (reportOk : T → Nat) : MainResult T Error → ReportOutcome
  | .Ok value => ⟨reportOk value, ""⟩
  | .Err error => ⟨ExitCode.FAILURE, error.displayStr false ++ "\n"⟩

/-- A concrete `Error` used to evaluate the termination adapter: an ad-hoc
message error captured with no active frames and backtrace capture disabled. -/
def bugExampleError : Error :=
  { source := ⟨"boom", "\"boom\""⟩
    span_trace := ⟨[]⟩
    backtrace := ⟨.disabled, ""⟩ }

/-- A concrete wrapped OS error ("no such file"), captured inside one
instrumented frame with the backtrace toggle off. -/
def noSuchFileError : Error :=
  Error.new
    { frames := [⟨"config::load", [("path", "\"some/config.json\"")], some "examples/sleep_helpful.rs:42"⟩]
      backtraceEnabled := false
      backtraceSupported := true
      backtraceText := "" }
    ⟨"No such file or directory (os error 2)", "Os \x7b code: 2, kind: NotFound \x7d"⟩

/-- C1: converting an Error value into an Error value is the identity.
`Error` does not implement `StdError`, so `Into::into` at type `Error` is the
reflexive `From<T> for T`: the result is the very same value — its rendered
output is textually identical, its span trace and backtrace snapshots are the
originals (no second wrapping, no re-capture) — and the extension operation on
an already-converted failure leaves it unchanged. -/
theorem c1_error_into_error_is_identity (T : Type) (ctx : Context) (e : Error) :
    IntoError.into ctx e = e
    ∧ (IntoError.into ctx e).displayStr false = e.displayStr false
    ∧ (IntoError.into ctx e).debugStr false = e.debugStr false
    ∧ (IntoError.into ctx e).span_trace = e.span_trace
    ∧ (IntoError.into ctx e).backtrace = e.backtrace
    ∧ Traced.traced ctx (RResult.err e : RResult T Error) = RResult.err e :=
  ⟨rfl, rfl, rfl, rfl, rfl, rfl⟩

/-- The non-alternate `Debug` rendering, with the backtrace section expressed
as a conditional: captured status appends the section, any other status
appends nothing. -/
theorem debugStr_false_eq (e : Error) :
    e.debugStr false =
      e.source.display ++ "\n\n" ++ "Call history (recent first):\n"
        ++ e.span_trace.render
        ++ (if e.backtrace.status = BacktraceStatus.captured
            then "\n\n" ++ "Backtrace:\n" ++ e.backtrace.render
            else "") := by
  rcases e with ⟨src, st, status, text⟩
  cases status <;> rfl

/-- C2: the full/diagnostic rendering (non-alternate `Debug`) is exactly the
source's message, a blank separator, the literal `Call history (recent first):`
header followed by the span trace, and — exactly when the backtrace status is
`captured` — a blank separator, the literal `Backtrace:` header and the
backtrace text; otherwise the backtrace section is absent entirely. -/
theorem c2_full_rendering_structure (e : Error) :
    e.debugStr false =
      e.source.display ++ "\n\n" ++ "Call history (recent first):\n"
        ++ e.span_trace.render
        ++ (if e.backtrace.status = BacktraceStatus.captured
            then "\n\n" ++ "Backtrace:\n" ++ e.backtrace.render
            else "") :=
  debugStr_false_eq e

/-- C3 counterexample: the failure branch of `MainResult::report` does not
write the bare full-form rendering followed by a line break — the text it
writes to the error stream is the non-alternate `Display` rendering, which
prepends the literal `Error: ` to the full form. -/
theorem c3_counterexample_stderr_not_bare_full_form :
    (MainResult.report (fun (_ : Unit) => 0) (MainResult.Err bugExampleError)).stderrText
      ≠ bugExampleError.debugStr false ++ "\n" := by
  decide

/-- C3 (amended): on the success branch `report` defers to the success value's
own exit-code reporting and writes nothing; on the failure branch it writes the
`Error: `-prefixed full-form rendering of the Error value, terminated by a line
break, to the error stream, and returns the single fixed non-zero failure exit
code regardless of which error is wrapped. -/
theorem c3_termination_mapping (T : Type) (reportOk : T → Nat) (v : T) (e : Error) :
    MainResult.report reportOk (MainResult.Ok v) = ⟨reportOk v, ""⟩
    ∧ (MainResult.report reportOk (MainResult.Err e)).stderrText
        = "Error: " ++ e.debugStr false ++ "\n"
    ∧ (MainResult.report reportOk (MainResult.Err e)).exitCode = ExitCode.FAILURE
    ∧ ExitCode.FAILURE ≠ 0 :=
  ⟨rfl, rfl, rfl, by decide⟩

/-- C4: wrapping a native error whose short-form text is `m` and rendering the
result in short form (alternate `Display`) yields exactly `m`: the short form
delegates entirely to the source's own rendering, with no span trace and no
backtrace. -/
theorem c4_short_form_is_source_message (ctx : Context) (ne : NativeError) :
    (Error.new ctx ne).displayStr true = ne.display :=
  rfl

/-- C5 counterexample: on unrecovered failure the text emitted to the error
stream does not begin with the underlying error's own message — for a wrapped
OS "no such file" error, the emitted text starts with the literal `Error: `,
not with `No such file or directory (os error 2)`. -/
theorem c5_counterexample_stderr_starts_with_error_prefix :
    (noSuchFileError.source.display.data.isPrefixOf
      (MainResult.report (fun (_ : Unit) => 0) (MainResult.Err noSuchFileError)).stderrText.data)
      = false := by
  decide

/-- C5 (amended): on unrecovered failure reaching program exit, the text
emitted to the error stream begins with the literal `Error: ` prefix, followed
by the underlying error's own message, followed by the call-history section
(and the backtrace section exactly when one was captured), terminated by a line
break. -/
theorem c5_stderr_shape (T : Type) (reportOk : T → Nat) (ctx : Context)
    (ne : NativeError) :
    (MainResult.report reportOk (MainResult.Err (Error.new ctx ne))).stderrText
      = "Error: " ++ ne.display ++ "\n\n" ++ "Call history (recent first):\n"
        ++ (SpanTrace.capture ctx).render
        ++ (if (Backtrace.capture ctx).status = BacktraceStatus.captured
            then "\n\n" ++ "Backtrace:\n" ++ (Backtrace.capture ctx).render
            else "")
        ++ "\n" := by
  show ("Error: " ++ (Error.new ctx ne).debugStr false) ++ "\n" = _
  rw [debugStr_false_eq]
  simp [Error.new, String.append_assoc]

/-- C6: the conversion extension maps `Ok(v)` to `Ok(v)` with `v` unchanged and
`Err(e)` to `Err` of the converted Error value, and, being a total function, it
produces the mapped outcome for every input result. -/
theorem c6_helpful_total_mapping (T E : Type) [IntoError E] (ctx : Context)
    (r : RResult T E) :
    ResultExt.helpful ctx r
      = (match r with
         | RResult.ok v => RResult.ok v
         | RResult.err e => RResult.err (IntoError.into ctx e)) := by
  cases r <;> rfl

/-- C7: the `helpful!` macro's literal branch wraps the literal directly — it
takes `format_err`'s `as_str = Some` path, so the result equals `Error::msg` of
the literal and its message text is the literal verbatim; the format branch
renders the template eagerly into an owned string and wraps that. -/
theorem c7_adhoc_construction_paths (ctx : Context) (msg : String)
    (args : Arguments) :
    (helpfulMacroLit ctx msg).source.display = msg
    ∧ helpfulMacroLit ctx msg = Error.msg ctx (strMessage msg)
    ∧ (helpfulMacroFmt ctx args).source.display = fmtFormat args :=
  ⟨rfl, rfl, rfl⟩

/-- C8: the implicit conversion applied by the propagation operator equals the
explicit constructor `Error::new`; the span-trace and backtrace snapshots are
captured exactly at that wrapping point, and a later conversion of the
resulting Error value (under any later ambient state) returns it unchanged —
the snapshots are never re-captured on propagation. -/
theorem c8_implicit_conversion_captures_once (ctx later : Context)
    (ne : NativeError) :
    IntoError.into ctx ne = Error.new ctx ne
    ∧ (IntoError.into ctx ne).span_trace = SpanTrace.capture ctx
    ∧ (IntoError.into ctx ne).backtrace = Backtrace.capture ctx
    ∧ IntoError.into later (IntoError.into ctx ne) = Error.new ctx ne :=
  ⟨rfl, rfl, rfl, rfl⟩

/-- C9: the default (non-alternate) `Display` rendering of an Error value is
the literal `Error: ` followed by the full/diagnostic form — a strictly
different string than the bare full form — and this prefixed form, followed by
a line break, is what the termination adapter writes to the error stream. -/
theorem c9_display_prefix_written_to_stderr (T : Type) (reportOk : T → Nat)
    (e : Error) :
    e.displayStr false = "Error: " ++ e.debugStr false
    ∧ (MainResult.report reportOk (MainResult.Err e)).stderrText
        = e.displayStr false ++ "\n"
    ∧ e.displayStr false ≠ e.debugStr false := by
  refine ⟨rfl, rfl, ?_⟩
  intro h
  have h2 : "Error: " ++ e.debugStr false = e.debugStr false := h
  have hlen := congrArg String.length h2
  rw [String.length_append] at hlen
  have h7 : ("Error: " : String).length = 7 := rfl
  rw [h7] at hlen
  omega

/-- C10: the two conversion-extension operations, `Traced::traced` and
`ResultExt::helpful`, are extensionally equal: for every success-or-
convertible-error result they return identical outputs. -/
theorem c10_traced_extensionally_equals_helpful (T E : Type) [IntoError E]
    (ctx : Context) (r : RResult T E) :
    Traced.traced ctx r = ResultExt.helpful ctx r :=
  rfl

end Helpful
